import Mathlib

/-!
A shallow embedding of the prometheus-osmetrics collection pipeline
(`src/metrics/collect.js` and `src/server.js`) together with proofs of the
specified properties.

Modelling conventions:
* JS numbers are modelled as `ℚ` (all quantities handled by the pipeline are
  exact decimal/binary values).
* Network effects are modelled by oracles: the per-pod metrics-endpoint
  response is a function `PodInfo → ApiResponse`, the pod listing is a
  function `String → List PodInfo`, and ISO-8601 date parsing
  (`new Date(s).getTime()`, returning epoch milliseconds) is a function
  `String → ℚ`.
* Thrown JS errors are modelled with `Except CollectError`.
* The injected logger's `warn` calls are modelled as an explicit list of
  `Warning` values returned next to the metric list.
-/

/-- Error taxonomy of the pipeline.  The JS code throws plain `Error`s; the
constructors record the data each message interpolates. `typeError` stands for
the runtime `TypeError` raised when the decoded body does not have the shape
the code subsequently reads without checking. -/
inductive CollectError where
  | parseError (raw : String)
  | upstreamError (status : Int) (url : String)
  | upstreamShapeError (msg : String)
  | typeError
deriving DecidableEq, Repr

deriving instance DecidableEq for Except

/-! ## Quantity parsers

`parse-memory.js` and `parse-cpu.js` are required by `collect.js` but are not
part of the provided sources, so they are modelled from the spec. -/

/-- Numeric value of a non-empty list of decimal digits. -/
def digitsVal (l : List Char) : Nat :=
  l.foldl (fun acc c => 10 * acc + (c.toNat - '0'.toNat)) 0

/-- `true` iff `l` is a non-empty list of decimal digits. -/
def allDigits (l : List Char) : Bool :=
  !l.isEmpty && l.all Char.isDigit

/-- Split a character list at the first dot, if any. -/
def splitDot : List Char → List Char × Option (List Char)
  | [] => ([], none)
  | c :: rest =>
    if c = '.' then ([], some rest)
    else
      let (a, b) := splitDot rest
      (c :: a, b)

/-- Modelled from the spec: the numeric portion of a quantity string must be
"a valid number"; we accept a non-empty digit string with an optional
fractional part (`500`, `0.5`, `128`).  Anything else is not a valid number. -/
def parseNumber (s : String) : Option ℚ :=
  match splitDot s.data with
  | (intPart, none) =>
    if allDigits intPart then some (digitsVal intPart : ℚ) else none
  | (intPart, some fracPart) =>
    if allDigits intPart && allDigits fracPart then
      some ((digitsVal intPart : ℚ) + (digitsVal fracPart : ℚ) / (10 : ℚ) ^ fracPart.length)
    else none

/-- Parse the numeric portion `s` and scale it by `mult`, failing with a
`parseError` naming the whole raw string. -/
def scaled (raw : String) (s : List Char) (mult : ℚ) : Except CollectError ℚ :=
  match parseNumber ⟨s⟩ with
  | some n => .ok (n * mult)
  | none => .error (.parseError raw)

/-- Modelled from the spec: `parseMemory(raw) → bytes`.  An optional binary
(`Ki`,`Mi`,`Gi`,`Ti`,`Pi`,`Ei` = 2^10…2^60) or decimal (`k`,`M`,`G`,`T`,`P`,`E`
= 10^3…10^18) unit may follow the number; no unit means raw bytes; a malformed
number or unrecognized unit is a `parseError`, never a default of zero. -/
def parseMemory (raw : String) : Except CollectError ℚ :=
  match raw.data.reverse with
  | 'i' :: 'K' :: rest => scaled raw rest.reverse (2 ^ 10)
  | 'i' :: 'M' :: rest => scaled raw rest.reverse (2 ^ 20)
  | 'i' :: 'G' :: rest => scaled raw rest.reverse (2 ^ 30)
  | 'i' :: 'T' :: rest => scaled raw rest.reverse (2 ^ 40)
  | 'i' :: 'P' :: rest => scaled raw rest.reverse (2 ^ 50)
  | 'i' :: 'E' :: rest => scaled raw rest.reverse (2 ^ 60)
  | 'k' :: rest => scaled raw rest.reverse (10 ^ 3)
  | 'M' :: rest => scaled raw rest.reverse (10 ^ 6)
  | 'G' :: rest => scaled raw rest.reverse (10 ^ 9)
  | 'T' :: rest => scaled raw rest.reverse (10 ^ 12)
  | 'P' :: rest => scaled raw rest.reverse (10 ^ 15)
  | 'E' :: rest => scaled raw rest.reverse (10 ^ 18)
  | l => scaled raw l.reverse 1

/-- Modelled from the spec: `parseCpu(raw) → millicores`.  A trailing `m`
means the number already is millicores; otherwise the number is whole cores
and is multiplied by 1000; non-numeric input is a `parseError`. -/
def parseCpu (raw : String) : Except CollectError ℚ :=
  match raw.data.reverse with
  | 'm' :: rest => scaled raw rest.reverse 1
  | l => scaled raw l.reverse 1000

/-! ## Pod descriptors (`list-pods.js` PodInfo, as read by `collect.js`) -/

/-- `pod.metadata` as read by `collect.js`. -/
structure PodMetadata where
  name : String
  «namespace» : String
deriving DecidableEq, Repr

/-- `spec.containers[].resources.{limits,requests}`: each of `memory` and
`cpu` is an optional raw quantity string. -/
structure ResourceQuantities where
  memory : Option String := none
  cpu : Option String := none
deriving DecidableEq, Repr

/-- `spec.containers[].resources`. -/
structure ContainerResources where
  limits : Option ResourceQuantities := none
  requests : Option ResourceQuantities := none
deriving DecidableEq, Repr

/-- One entry of `pod.spec.containers`. -/
structure SpecContainer where
  name : String
  resources : Option ContainerResources := none
deriving DecidableEq, Repr

/-- `pod.spec`. -/
structure PodSpec where
  containers : List SpecContainer
deriving DecidableEq, Repr

/-- `pod.status`. -/
structure PodStatus where
  phase : String
deriving DecidableEq, Repr

/-- A pod descriptor as returned by the pod-listing collaborator. -/
structure PodInfo where
  metadata : PodMetadata
  spec : PodSpec
  status : PodStatus
deriving DecidableEq, Repr

/-! ## The decoded JSON body and the shape checks (collect.js lines 75-106) -/

/-- A decoded JSON value (`await response.json()`). -/
inductive JsonValue where
  | null
  | bool (b : Bool)
  | num (q : ℚ)
  | str (s : String)
  | arr (elems : List JsonValue)
  | obj (fields : List (String × JsonValue))

/-- JS `typeof` on a decoded JSON value: `typeof null`, arrays and objects
are all `"object"`. -/
def jsTypeof : JsonValue → String
  | .null => "object"
  | .bool _ => "boolean"
  | .num _ => "number"
  | .str _ => "string"
  | .arr _ => "object"
  | .obj _ => "object"

/-- `Array.isArray(body)`. -/
def JsonValue.isArrB : JsonValue → Bool
  | .arr _ => true
  | _ => false

/-- `body == null`. -/
def JsonValue.isNullB : JsonValue → Bool
  | .null => true
  | _ => false

/-- Field lookup on a JS object (`body.kind` etc.); `none` is `undefined`. -/
def getField (fields : List (String × JsonValue)) (key : String) : Option JsonValue :=
  (fields.find? (fun kv => kv.1 == key)).map (·.2)

/-- `body.kind` for the kind check; `none` when the body is not an object or
has no `kind` field (JS would read `undefined`). -/
def bodyKind : JsonValue → Option JsonValue
  | .obj fields => getField fields "kind"
  | _ => none

/-- `body.kind !== 'PodMetrics'` is false exactly here. -/
def kindIsPodMetrics (body : JsonValue) : Bool :=
  match bodyKind body with
  | some (.str s) => s == "PodMetrics"
  | _ => false

/-- String interpolation `${body.kind}` as used in the kind-mismatch message:
a missing field prints `undefined`, a string prints itself; other JSON values
do not occur in the claims and are printed by constructor. -/
def displayKind : Option JsonValue → String
  | none => "undefined"
  | some .null => "null"
  | some (.bool b) => if b then "true" else "false"
  | some (.num _) => "number"
  | some (.str s) => s
  | some (.arr _) => "array"
  | some (.obj _) => "object"

/-- The status check of `fetchPodMemoryAndCpuUsage` (collect.js lines 75-83):
a status outside [200,299] or exactly 204 throws, naming status and URL. -/
def checkStatus (status : Int) (url : String) : Except CollectError Unit :=
  if status < 200 ∨ status > 299 ∨ status = 204 then
    .error (.upstreamError status url)
  else
    .ok ()

/-- The body shape checks of `fetchPodMemoryAndCpuUsage` (collect.js lines
90-106), in source order: `typeof body !== 'object'`, `Array.isArray(body)`,
`body == null`, `body.kind !== 'PodMetrics'`. -/
def checkBody (body : JsonValue) : Except CollectError Unit :=
  if jsTypeof body ≠ "object" then
    .error (.upstreamShapeError
      ("Expected OS API to return an object but got " ++ jsTypeof body))
  else if body.isArrB then
    .error (.upstreamShapeError "Expected OS API to return an object but got an array")
  else if body.isNullB then
    .error (.upstreamShapeError "Expected OS API to return an object but got null")
  else if ¬kindIsPodMetrics body then
    .error (.upstreamShapeError
      ("Expected OS API to return a PodMetrics but got " ++ displayKind (bodyKind body)))
  else
    .ok ()

/-! ## Metric derivation (collect.js lines 44-50 and 108-281) -/

/-- The label set every produced record carries (collect.js always builds
`{ pod, container, namespace }`). -/
structure Labels where
  pod : String
  container : String
  «namespace» : String
deriving DecidableEq, Repr

/-- One `PrometheusMetric` record as pushed onto `metrics`. -/
structure PrometheusMetric where
  name : String
  labels : Labels
  type : String
  help : String
  value : ℚ
  timestamp : ℚ
deriving DecidableEq, Repr

/-- One `logger.warn` call of the rate blocks, with the interpolated data:
metric name, pod, container, raw spec string, parsed spec, usage, rate. -/
structure Warning where
  metric : String
  pod : String
  container : String
  specRaw : String
  specParsed : ℚ
  usage : ℚ
  rate : ℚ
deriving DecidableEq, Repr

/-- `dateToTimeStamp` (collect.js lines 48-50): `new Date(date).getTime() /
1000`.  `getTime` is the ISO-8601 parsing oracle (epoch milliseconds). -/
def dateToTimeStamp (getTime : String → ℚ) (date : String) : ℚ :=
  getTime date / 1000

/-- One entry of `body.containers[].usage`. -/
structure ContainerUsage where
  memory : String
  cpu : String
deriving DecidableEq, Repr

/-- One entry of `body.containers`. -/
structure ContainerMetrics where
  name : String
  usage : ContainerUsage
deriving DecidableEq, Repr

/-- The typed shape of a valid body as collect.js's typedef declares it and
as the code reads it after the shape checks. -/
structure PodMetricsBody where
  containers : List ContainerMetrics
  timestamp : String
deriving DecidableEq, Repr

/-- The JS truthiness gate on an optional quantity string: `undefined` and
`""` are falsy, so only a present non-empty string passes. -/
def truthyStr : Option String → Option String
  | some s => if s = "" then none else some s
  | none => none

/-- The guard chain `specContainer && specContainer.resources &&
specContainer.resources.<side> && ...<side>.<field>` of each rate block,
returning the declared quantity string when the whole chain is truthy. -/
def declaredQuantity (side : ContainerResources → Option ResourceQuantities)
    (field : ResourceQuantities → Option String)
    (specContainer : Option SpecContainer) : Option String :=
  match specContainer with
  | none => none
  | some sc =>
    match sc.resources with
    | none => none
    | some r =>
      match side r with
      | none => none
      | some q => truthyStr (field q)

/-- One conditional rate block of collect.js (the four blocks in lines
146-277 are identical up to metric name, help text, parser and usage value).
When the declared quantity is absent nothing is produced; otherwise the
quantity is parsed, `rate = usage / spec` becomes a gauge record, and a
warning is recorded when `rate > 1`. -/
def rateMetric (metricName helpText : String)
    (parser : String → Except CollectError ℚ) (usage : ℚ)
    (pod : PodInfo) (containerName : String) (ts : ℚ)
    (declared : Option String) :
    Except CollectError (List PrometheusMetric × List Warning) :=
  match declared with
  | none => .ok ([], [])
  | some raw =>
    match parser raw with
    | .error e => .error e
    | .ok spec =>
      let rate := usage / spec
      .ok ([{ name := metricName,
              labels := { pod := pod.metadata.name, container := containerName,
                          «namespace» := pod.metadata.«namespace» },
              type := "gauge", help := helpText, value := rate, timestamp := ts }],
           if rate > 1 then
             [{ metric := metricName, pod := pod.metadata.name,
                container := containerName, specRaw := raw, specParsed := spec,
                usage := usage, rate := rate }]
           else [])

/-- The body of the `containers.forEach` callback (collect.js lines 116-279)
for one container: the two unconditional usage records followed by the four
conditional rate blocks, in source order. -/
def processContainer (pod : PodInfo) (ts : ℚ) (container : ContainerMetrics) :
    Except CollectError (List PrometheusMetric × List Warning) := do
  let parsedMemoryUsage ← parseMemory container.usage.memory
  let parsedCpuUsage ← parseCpu container.usage.cpu
  let base : List PrometheusMetric :=
    [{ name := "osmetrics_pod_memory_usage_bytes",
       labels := { pod := pod.metadata.name, container := container.name,
                   «namespace» := pod.metadata.«namespace» },
       type := "gauge", help := "Pod Memory Usage",
       value := parsedMemoryUsage, timestamp := ts },
     { name := "osmetrics_pod_cpu_usage_millicores",
       labels := { pod := pod.metadata.name, container := container.name,
                   «namespace» := pod.metadata.«namespace» },
       type := "gauge", help := "Pod CPU Usage Rate",
       value := parsedCpuUsage, timestamp := ts }]
  let specContainer := pod.spec.containers.find? (fun cont => cont.name == container.name)
  let (m1, w1) ← rateMetric "osmetrics_pod_memory_usage_limits_rate" "Pod Memory Usage"
    parseMemory parsedMemoryUsage pod container.name ts
    (declaredQuantity ContainerResources.limits ResourceQuantities.memory specContainer)
  let (m2, w2) ← rateMetric "osmetrics_pod_memory_usage_requests_rate" "Pod Memory Usage"
    parseMemory parsedMemoryUsage pod container.name ts
    (declaredQuantity ContainerResources.requests ResourceQuantities.memory specContainer)
  let (m3, w3) ← rateMetric "osmetrics_pod_cpu_usage_limits_rate" "Pod CPU Usage rate"
    parseCpu parsedCpuUsage pod container.name ts
    (declaredQuantity ContainerResources.limits ResourceQuantities.cpu specContainer)
  let (m4, w4) ← rateMetric "osmetrics_pod_cpu_usage_requests_rate" "Pod CPU Usage rate"
    parseCpu parsedCpuUsage pod container.name ts
    (declaredQuantity ContainerResources.requests ResourceQuantities.cpu specContainer)
  .ok (base ++ m1 ++ m2 ++ m3 ++ m4, w1 ++ w2 ++ w3 ++ w4)

/-- The loop over `body.containers` (collect.js lines 111-281): records and
warnings accumulate in container order; the first thrown error aborts. -/
def processContainers (pod : PodInfo) (ts : ℚ) :
    List ContainerMetrics → Except CollectError (List PrometheusMetric × List Warning)
  | [] => .ok ([], [])
  | c :: rest => do
    let (ms, ws) ← processContainer pod ts c
    let (ms2, ws2) ← processContainers pod ts rest
    .ok (ms ++ ms2, ws ++ ws2)

/-- Lines 108-281 of collect.js on the typed body: one shared timestamp, then
the per-container loop. -/
def processBody (getTime : String → ℚ) (pod : PodInfo) (b : PodMetricsBody) :
    Except CollectError (List PrometheusMetric × List Warning) :=
  processContainers pod (dateToTimeStamp getTime b.timestamp) b.containers

/-! ## The full fetch (collect.js lines 56-282) -/

/-- What the environment delivers for one pod's metrics-endpoint request:
the HTTP status, the response URL and the decoded JSON body. -/
structure ApiResponse where
  status : Int
  url : String
  body : JsonValue

/-- Read `usage.{memory,cpu}` the way the JS code does; a non-string where a
string is expected would crash the JS with a `TypeError`, modelled as `none`. -/
def decodeUsage : JsonValue → Option ContainerUsage
  | .obj fields =>
    match getField fields "memory", getField fields "cpu" with
    | some (.str m), some (.str c) => some { memory := m, cpu := c }
    | _, _ => none
  | _ => none

/-- Read one entry of `body.containers`. -/
def decodeContainer : JsonValue → Option ContainerMetrics
  | .obj fields =>
    match getField fields "name", (getField fields "usage").bind decodeUsage with
    | some (.str n), some u => some { name := n, usage := u }
    | _, _ => none
  | _ => none

/-- Read all entries of `body.containers`. -/
def decodeContainers : List JsonValue → Option (List ContainerMetrics)
  | [] => some []
  | v :: rest =>
    match decodeContainer v, decodeContainers rest with
    | some c, some cs => some (c :: cs)
    | _, _ => none

/-- Read the typed view `{containers, timestamp}` that lines 113-114 of
collect.js extract without further checks; a body outside the typedef shape
crashes the JS with a `TypeError`, modelled as `none`. -/
def decodePodMetrics : JsonValue → Option PodMetricsBody
  | .obj fields =>
    match getField fields "containers", getField fields "timestamp" with
    | some (.arr elems), some (.str ts) =>
      match decodeContainers elems with
      | some cs => some { containers := cs, timestamp := ts }
      | none => none
    | _, _ => none
  | _ => none

/-- `fetchPodMemoryAndCpuUsage` (collect.js lines 56-282), with the network
response supplied by the environment: status check, shape checks, then
per-container metric derivation. -/
def fetchPodMemoryAndCpuUsage (getTime : String → ℚ) (pod : PodInfo)
    (resp : ApiResponse) :
    Except CollectError (List PrometheusMetric × List Warning) := do
  checkStatus resp.status resp.url
  checkBody resp.body
  match decodePodMetrics resp.body with
  | none => .error .typeError
  | some b => processBody getTime pod b

/-! ## The collector (collect.js lines 289-347) -/

/-- The filter predicate of collect.js line 304:
`pod.status.phase !== 'Failed' && pod.status.phase !== 'Succeeded'`. -/
def nonTerminal (pod : PodInfo) : Bool :=
  pod.status.phase != "Failed" && pod.status.phase != "Succeeded"

/-- `podsPerNamespace.reduce((accum, pods) => accum.concat(pods), [])`
(collect.js line 302). -/
def concatPods (podsPerNamespace : List (List PodInfo)) : List PodInfo :=
  podsPerNamespace.foldl (fun accum pods => accum ++ pods) []

/-- `allPods` (collect.js lines 301-305): concatenation of all namespace
listings, terminal pods removed. -/
def allPodsOf (podsPerNamespace : List (List PodInfo)) : List PodInfo :=
  (concatPods podsPerNamespace).filter nonTerminal

/-- The per-pod processing driven by the pool (`processPod` plus
`promiseProducer`, collect.js lines 316-344), as a sequential denotation:
each pod's fetch either contributes its records or aborts the whole run with
its error.  `fetch` is the network oracle; the pool's completion order only
permutes the record list, which no proved property depends on, so the pods
are processed in the producer's `pop()` order (last listed first). -/
def collectPods (getTime : String → ℚ) (fetch : PodInfo → ApiResponse) :
    List PodInfo → Except CollectError (List PrometheusMetric × List Warning)
  | [] => .ok ([], [])
  | p :: rest => do
    let (ms, ws) ← fetchPodMemoryAndCpuUsage getTime p (fetch p)
    let (ms2, ws2) ← collectPods getTime fetch rest
    .ok (ms ++ ms2, ws ++ ws2)

/-- `collectMetrics` (collect.js lines 289-347): list pods per namespace
(`podsPerNamespace` is the oracle result of the `listPods` calls), filter
terminal pods, run every remaining pod through `fetchPodMemoryAndCpuUsage`,
concatenate the records; any single failure fails the whole collection. -/
def collectMetrics (getTime : String → ℚ) (fetch : PodInfo → ApiResponse)
    (podsPerNamespace : List (List PodInfo)) :
    Except CollectError (List PrometheusMetric × List Warning) :=
  collectPods getTime fetch (allPodsOf podsPerNamespace).reverse

/-! ## The concurrency pool, operationally

`es6-promise-pool` is an external library, so its scheduling is modelled from
the spec as a small-step transition system: `pending` is the producer's
remaining stack (head popped next), `inFlight` the dispatched unfinished
fetches, `failed` whether a rejection has been observed. -/

/-- The scheduling state of one pool run. -/
structure PoolState where
  pending : List PodInfo
  inFlight : List PodInfo
  failed : Bool
deriving DecidableEq, Repr

/-- Modelled from the spec: one scheduling step of the pool with concurrency
bound `c` and per-pod outcome `ok : PodInfo → Bool`.
* `dispatch`: while no failure has been observed, fewer than `c` fetches are
  in flight and pods are pending, the producer is called and the next pod
  starts (this covers both the initial fill and the dispatch following each
  completion).
* `settleOk` / `settleFail`: a dispatched fetch settles and leaves the
  in-flight set; a rejection sets `failed` (in-flight siblings still settle
  but nothing new is dispatched, since `dispatch` requires `failed = false`). -/
inductive PoolStep (c : Nat) (ok : PodInfo → Bool) : PoolState → PoolState → Prop
  | dispatch (p : PodInfo) (rest : List PodInfo) (s : PoolState) :
      s.failed = false → s.pending = p :: rest → s.inFlight.length < c →
      PoolStep c ok s { pending := rest, inFlight := p :: s.inFlight, failed := false }
  | settleOk (p : PodInfo) (l₁ l₂ : List PodInfo) (s : PoolState) :
      s.inFlight = l₁ ++ p :: l₂ → ok p = true →
      PoolStep c ok s { pending := s.pending, inFlight := l₁ ++ l₂, failed := s.failed }
  | settleFail (p : PodInfo) (l₁ l₂ : List PodInfo) (s : PoolState) :
      s.inFlight = l₁ ++ p :: l₂ → ok p = false →
      PoolStep c ok s { pending := s.pending, inFlight := l₁ ++ l₂, failed := true }

/-- The pool's initial state for one collection cycle: every filtered pod
pending (`allPods`, popped from the end), nothing in flight. -/
def initPoolState (podsPerNamespace : List (List PodInfo)) : PoolState :=
  { pending := (allPodsOf podsPerNamespace).reverse, inFlight := [], failed := false }

/-- States reachable by the pool scheduler. -/
def PoolReachable (c : Nat) (ok : PodInfo → Bool) : PoolState → PoolState → Prop :=
  Relation.ReflTransGen (PoolStep c ok)

/-! ## The server route (server.js) -/

/-- The options of `createServer` that the `/metrics` handler reads;
`concurrency = 10` is the declared default (server.js line 22). -/
structure ServerOptions where
  concurrency : Nat := 10
  defaultNamespace : List String

/-- The `/metrics` query as typed by the route schema: `namespace` is a
string or an array of strings when present, `excitement` an integer. -/
structure MetricsQuery where
  «namespace» : Option (String ⊕ List String)
  excitement : Option Int

/-- The schema constraint on the `namespace` parameter (server.js lines
48-56): a string of length ≥ 1, or an array of such strings. -/
def validNamespaceParam : Option (String ⊕ List String) → Bool
  | none => true
  | some (.inl s) => decide (1 ≤ s.length)
  | some (.inr l) => l.all (fun s => decide (1 ≤ s.length))

/-- The `/metrics` querystring schema (server.js lines 43-60): `namespace`
constrained as above, `excitement` any integer, no other properties. -/
def querySchemaAccepts (q : MetricsQuery) : Bool :=
  validNamespaceParam q.«namespace»

/-- The namespace resolution of the handler (server.js lines 64-70):
`defaultNamespace`, overridden when `req.query.namespace` is truthy; a string
becomes a one-element array.  (An empty string is JS-falsy and would keep the
default; the schema already rejects it.) -/
def resolveNamespaces (defaultNamespace : List String) (q : MetricsQuery) : List String :=
  match q.«namespace» with
  | none => defaultNamespace
  | some (.inl s) => if s = "" then defaultNamespace else [s]
  | some (.inr l) => l

/-- The `/metrics` handler body (server.js lines 63-84) up to serialization:
resolve the namespaces, call `collectMetrics` with them (`listing` is the
oracle for the external `listPods` collaborator). -/
def metricsRoute (opts : ServerOptions) (getTime : String → ℚ)
    (fetch : PodInfo → ApiResponse) (listing : String → List PodInfo)
    (q : MetricsQuery) :
    Except CollectError (List PrometheusMetric × List Warning) :=
  collectMetrics getTime fetch
    ((resolveNamespaces opts.defaultNamespace q).map listing)

/-- The spec-container lookup of collect.js line 144:
`pod.spec.containers.find(cont => cont.name === container.name)`. -/
def specContainerOf (pod : PodInfo) (cname : String) : Option SpecContainer :=
  pod.spec.containers.find? (fun cont => cont.name == cname)

/-! ## Concrete sample inputs used by the evaluation theorems -/

/-- A running pod with no declared resources. -/
def samplePod : PodInfo :=
  { metadata := { name := "web", «namespace» := "prod" },
    spec := { containers := [] },
    status := { phase := "Running" } }

/-- A running pod whose single spec container declares a memory limit of
`256Mi` = 2^28 bytes. -/
def samplePodWithLimit : PodInfo :=
  { metadata := { name := "web", «namespace» := "prod" },
    spec := { containers :=
      [{ name := "app",
         resources := some { limits := some { memory := some "256Mi" } } }] },
    status := { phase := "Running" } }

/-- A reported usage sample for the container `app`. -/
def sampleContainer : ContainerMetrics :=
  { name := "app", usage := { memory := "128Mi", cpu := "500m" } }

/-- A terminal (succeeded) pod. -/
def donePod : PodInfo :=
  { metadata := { name := "job", «namespace» := "prod" },
    spec := { containers := [] },
    status := { phase := "Succeeded" } }

/-- A date-parsing oracle for concrete runs. -/
def sampleGetTime : String → ℚ := fun _ => 1700000000000

/-- A response oracle that always reports HTTP 500. -/
def failingFetch : PodInfo → ApiResponse :=
  fun _ => { status := 500, url := "https://os/api", body := .null }

/-- A usage sample whose memory reading (`512Mi` = 2^29) exceeds the declared
limit of `samplePodWithLimit` (2^28), giving a rate of 2. -/
def sampleHotContainer : ContainerMetrics :=
  { name := "app", usage := { memory := "512Mi", cpu := "500m" } }

/-- The records `processContainer` derives for `samplePodWithLimit` and
`sampleHotContainer` at timestamp 0. -/
def sampleHotRecords : List PrometheusMetric :=
  [{ name := "osmetrics_pod_memory_usage_bytes",
     labels := { pod := "web", container := "app", «namespace» := "prod" },
     type := "gauge", help := "Pod Memory Usage",
     value := 536870912, timestamp := 0 },
   { name := "osmetrics_pod_cpu_usage_millicores",
     labels := { pod := "web", container := "app", «namespace» := "prod" },
     type := "gauge", help := "Pod CPU Usage Rate",
     value := 500, timestamp := 0 },
   { name := "osmetrics_pod_memory_usage_limits_rate",
     labels := { pod := "web", container := "app", «namespace» := "prod" },
     type := "gauge", help := "Pod Memory Usage",
     value := 2, timestamp := 0 }]

/-- The warning that accompanies `sampleHotRecords` (rate 2 > 1). -/
def sampleHotWarning : Warning :=
  { metric := "osmetrics_pod_memory_usage_limits_rate", pod := "web",
    container := "app", specRaw := "256Mi", specParsed := 268435456,
    usage := 536870912, rate := 2 }

/-! ## Helper lemmas -/

/-- `rateMetric` with no declared quantity produces nothing. -/
theorem rateMetric_none (metricName helpText : String)
    (parser : String → Except CollectError ℚ) (usage : ℚ)
    (pod : PodInfo) (cn : String) (ts : ℚ) :
    rateMetric metricName helpText parser usage pod cn ts none = .ok ([], []) := rfl

/-- `rateMetric` with a declared quantity that parses: one record whose value
is the rate, one warning exactly when the rate exceeds 1. -/
theorem rateMetric_some (metricName helpText : String)
    (parser : String → Except CollectError ℚ) (usage : ℚ)
    (pod : PodInfo) (cn : String) (ts : ℚ) (raw : String) (spec : ℚ)
    (hp : parser raw = .ok spec) :
    rateMetric metricName helpText parser usage pod cn ts (some raw) =
      .ok ([{ name := metricName,
              labels := { pod := pod.metadata.name, container := cn,
                          «namespace» := pod.metadata.«namespace» },
              type := "gauge", help := helpText, value := usage / spec,
              timestamp := ts }],
           if usage / spec > 1 then
             [{ metric := metricName, pod := pod.metadata.name, container := cn,
                specRaw := raw, specParsed := spec, usage := usage,
                rate := usage / spec }]
           else []) := by
  simp [rateMetric, hp]

/-- Inversion for one rate block: a successful result is either the empty
contribution (nothing declared) or exactly one record with its conditional
warning. -/
theorem rateMetric_inv (metricName helpText : String)
    (parser : String → Except CollectError ℚ) (usage : ℚ)
    (pod : PodInfo) (cn : String) (ts : ℚ) (declared : Option String)
    (ms : List PrometheusMetric) (ws : List Warning)
    (h : rateMetric metricName helpText parser usage pod cn ts declared = .ok (ms, ws)) :
    (declared = none ∧ ms = [] ∧ ws = []) ∨
    (∃ raw spec, declared = some raw ∧ parser raw = .ok spec ∧
      ms = [{ name := metricName,
              labels := { pod := pod.metadata.name, container := cn,
                          «namespace» := pod.metadata.«namespace» },
              type := "gauge", help := helpText, value := usage / spec,
              timestamp := ts }] ∧
      ws = (if usage / spec > 1 then
              [{ metric := metricName, pod := pod.metadata.name, container := cn,
                 specRaw := raw, specParsed := spec, usage := usage,
                 rate := usage / spec }]
            else [])) := by
  cases declared with
  | none =>
    left
    simp [rateMetric] at h
    exact ⟨rfl, h.1, h.2⟩
  | some raw =>
    right
    cases hp : parser raw with
    | error e => simp [rateMetric, hp] at h
    | ok spec =>
      refine ⟨raw, spec, rfl, hp, ?_⟩
      simp [rateMetric, hp] at h
      exact ⟨h.1.symm, h.2.symm⟩

/-- Inversion of `processContainer`: a success decomposes into the two parsed
usages, the four rate-block contributions, and the concatenated output. -/
theorem processContainer_inv (pod : PodInfo) (ts : ℚ) (c : ContainerMetrics)
    (ms : List PrometheusMetric) (ws : List Warning)
    (h : processContainer pod ts c = .ok (ms, ws)) :
    ∃ (um uc : ℚ) (m1 m2 m3 m4 : List PrometheusMetric) (w1 w2 w3 w4 : List Warning),
      parseMemory c.usage.memory = .ok um ∧
      parseCpu c.usage.cpu = .ok uc ∧
      rateMetric "osmetrics_pod_memory_usage_limits_rate" "Pod Memory Usage"
        parseMemory um pod c.name ts
        (declaredQuantity ContainerResources.limits ResourceQuantities.memory
          (specContainerOf pod c.name)) = .ok (m1, w1) ∧
      rateMetric "osmetrics_pod_memory_usage_requests_rate" "Pod Memory Usage"
        parseMemory um pod c.name ts
        (declaredQuantity ContainerResources.requests ResourceQuantities.memory
          (specContainerOf pod c.name)) = .ok (m2, w2) ∧
      rateMetric "osmetrics_pod_cpu_usage_limits_rate" "Pod CPU Usage rate"
        parseCpu uc pod c.name ts
        (declaredQuantity ContainerResources.limits ResourceQuantities.cpu
          (specContainerOf pod c.name)) = .ok (m3, w3) ∧
      rateMetric "osmetrics_pod_cpu_usage_requests_rate" "Pod CPU Usage rate"
        parseCpu uc pod c.name ts
        (declaredQuantity ContainerResources.requests ResourceQuantities.cpu
          (specContainerOf pod c.name)) = .ok (m4, w4) ∧
      ms = [{ name := "osmetrics_pod_memory_usage_bytes",
              labels := { pod := pod.metadata.name, container := c.name,
                          «namespace» := pod.metadata.«namespace» },
              type := "gauge", help := "Pod Memory Usage",
              value := um, timestamp := ts },
            { name := "osmetrics_pod_cpu_usage_millicores",
              labels := { pod := pod.metadata.name, container := c.name,
                          «namespace» := pod.metadata.«namespace» },
              type := "gauge", help := "Pod CPU Usage Rate",
              value := uc, timestamp := ts }] ++ m1 ++ m2 ++ m3 ++ m4 ∧
      ws = w1 ++ w2 ++ w3 ++ w4 := by
  unfold processContainer at h
  cases hum : parseMemory c.usage.memory with
  | error e => rw [hum] at h; simp [Bind.bind, Except.bind] at h
  | ok um =>
  cases huc : parseCpu c.usage.cpu with
  | error e => rw [hum, huc] at h; simp [Bind.bind, Except.bind] at h
  | ok uc =>
  rw [hum, huc] at h
  simp only [Bind.bind, Except.bind] at h
  cases hr1 : rateMetric "osmetrics_pod_memory_usage_limits_rate" "Pod Memory Usage"
      parseMemory um pod c.name ts
      (declaredQuantity ContainerResources.limits ResourceQuantities.memory
        (pod.spec.containers.find? (fun cont => cont.name == c.name))) with
  | error e => rw [hr1] at h; simp at h
  | ok r1 =>
  obtain ⟨m1, w1⟩ := r1
  rw [hr1] at h
  simp only at h
  cases hr2 : rateMetric "osmetrics_pod_memory_usage_requests_rate" "Pod Memory Usage"
      parseMemory um pod c.name ts
      (declaredQuantity ContainerResources.requests ResourceQuantities.memory
        (pod.spec.containers.find? (fun cont => cont.name == c.name))) with
  | error e => rw [hr2] at h; simp at h
  | ok r2 =>
  obtain ⟨m2, w2⟩ := r2
  rw [hr2] at h
  simp only at h
  cases hr3 : rateMetric "osmetrics_pod_cpu_usage_limits_rate" "Pod CPU Usage rate"
      parseCpu uc pod c.name ts
      (declaredQuantity ContainerResources.limits ResourceQuantities.cpu
        (pod.spec.containers.find? (fun cont => cont.name == c.name))) with
  | error e => rw [hr3] at h; simp at h
  | ok r3 =>
  obtain ⟨m3, w3⟩ := r3
  rw [hr3] at h
  simp only at h
  cases hr4 : rateMetric "osmetrics_pod_cpu_usage_requests_rate" "Pod CPU Usage rate"
      parseCpu uc pod c.name ts
      (declaredQuantity ContainerResources.requests ResourceQuantities.cpu
        (pod.spec.containers.find? (fun cont => cont.name == c.name))) with
  | error e => rw [hr4] at h; simp at h
  | ok r4 =>
  obtain ⟨m4, w4⟩ := r4
  rw [hr4] at h
  simp only [Except.ok.injEq, Prod.mk.injEq] at h
  exact ⟨um, uc, m1, m2, m3, m4, w1, w2, w3, w4, rfl, rfl,
    by rw [specContainerOf]; exact hr1, by rw [specContainerOf]; exact hr2,
    by rw [specContainerOf]; exact hr3, by rw [specContainerOf]; exact hr4,
    h.1.symm, h.2.symm⟩

/-- Every record a rate block produces carries the block's metric name, the
`gauge` type, the pod/container/namespace labels and the shared timestamp. -/
theorem rateMetric_fields (metricName helpText : String)
    (parser : String → Except CollectError ℚ) (usage : ℚ)
    (pod : PodInfo) (cn : String) (ts : ℚ) (declared : Option String)
    (ms : List PrometheusMetric) (ws : List Warning)
    (h : rateMetric metricName helpText parser usage pod cn ts declared = .ok (ms, ws)) :
    ∀ m ∈ ms, m.name = metricName ∧ m.type = "gauge" ∧ m.timestamp = ts ∧
      m.labels = { pod := pod.metadata.name, container := cn,
                   «namespace» := pod.metadata.«namespace» } := by
  rcases rateMetric_inv metricName helpText parser usage pod cn ts declared ms ws h with
    ⟨-, rfl, -⟩ | ⟨raw, spec, -, -, rfl, -⟩
  · intro m hm; cases hm
  · intro m hm
    rcases List.mem_singleton.mp hm with rfl
    exact ⟨rfl, rfl, rfl, rfl⟩

/-- Every warning a rate block records carries the block's metric name. -/
theorem rateMetric_warn_metric (metricName helpText : String)
    (parser : String → Except CollectError ℚ) (usage : ℚ)
    (pod : PodInfo) (cn : String) (ts : ℚ) (declared : Option String)
    (ms : List PrometheusMetric) (ws : List Warning)
    (h : rateMetric metricName helpText parser usage pod cn ts declared = .ok (ms, ws)) :
    ∀ w ∈ ws, w.metric = metricName := by
  rcases rateMetric_inv metricName helpText parser usage pod cn ts declared ms ws h with
    ⟨-, -, rfl⟩ | ⟨raw, spec, -, -, -, rfl⟩
  · intro w hw; cases hw
  · intro w hw
    split at hw
    · rcases List.mem_singleton.mp hw with rfl; rfl
    · cases hw

/-- How many records named `n` one rate block contributes: one when a
quantity is declared and the block's name is `n`, zero otherwise. -/
theorem rateMetric_countP (metricName helpText : String)
    (parser : String → Except CollectError ℚ) (usage : ℚ)
    (pod : PodInfo) (cn : String) (ts : ℚ) (declared : Option String)
    (ms : List PrometheusMetric) (ws : List Warning)
    (h : rateMetric metricName helpText parser usage pod cn ts declared = .ok (ms, ws))
    (n : String) :
    ms.countP (fun m => m.name == n) =
      if declared.isSome ∧ metricName = n then 1 else 0 := by
  rcases rateMetric_inv metricName helpText parser usage pod cn ts declared ms ws h with
    ⟨rfl, rfl, -⟩ | ⟨raw, spec, rfl, -, rfl, -⟩
  · simp
  · by_cases hn : metricName = n
    · simp [List.countP, List.countP.go, hn]
    · have hb : (metricName == n) = false := beq_eq_false_iff_ne.mpr hn
      simp [List.countP, List.countP.go, hn, hb]

/-- Record-count formula for one processed container: one record per
unconditional metric, one per declared quantity, under the block's name. -/
theorem processContainer_countP (pod : PodInfo) (ts : ℚ) (c : ContainerMetrics)
    (ms : List PrometheusMetric) (ws : List Warning)
    (h : processContainer pod ts c = .ok (ms, ws)) (n : String) :
    ms.countP (fun m => m.name == n) =
      (if "osmetrics_pod_memory_usage_bytes" = n then 1 else 0) +
      (if "osmetrics_pod_cpu_usage_millicores" = n then 1 else 0) +
      (if (declaredQuantity ContainerResources.limits ResourceQuantities.memory
            (specContainerOf pod c.name)).isSome ∧
          "osmetrics_pod_memory_usage_limits_rate" = n then 1 else 0) +
      (if (declaredQuantity ContainerResources.requests ResourceQuantities.memory
            (specContainerOf pod c.name)).isSome ∧
          "osmetrics_pod_memory_usage_requests_rate" = n then 1 else 0) +
      (if (declaredQuantity ContainerResources.limits ResourceQuantities.cpu
            (specContainerOf pod c.name)).isSome ∧
          "osmetrics_pod_cpu_usage_limits_rate" = n then 1 else 0) +
      (if (declaredQuantity ContainerResources.requests ResourceQuantities.cpu
            (specContainerOf pod c.name)).isSome ∧
          "osmetrics_pod_cpu_usage_requests_rate" = n then 1 else 0) := by
  obtain ⟨um, uc, m1, m2, m3, m4, w1, w2, w3, w4, hum, huc, h1, h2, h3, h4, hms, hws⟩ :=
    processContainer_inv pod ts c ms ws h
  subst hms
  rw [List.countP_append, List.countP_append, List.countP_append, List.countP_append]
  rw [rateMetric_countP _ _ _ _ _ _ _ _ _ _ h1 n, rateMetric_countP _ _ _ _ _ _ _ _ _ _ h2 n,
      rateMetric_countP _ _ _ _ _ _ _ _ _ _ h3 n, rateMetric_countP _ _ _ _ _ _ _ _ _ _ h4 n]
  simp only [List.countP_cons, List.countP_nil, beq_iff_eq]
  by_cases e1 : "osmetrics_pod_memory_usage_bytes" = n <;>
    by_cases e2 : "osmetrics_pod_cpu_usage_millicores" = n <;>
      simp [e1, e2]

/-- Every record one processed container yields is a gauge labelled with the
pod name, the container name and the namespace, stamped with the shared
timestamp. -/
theorem processContainer_fields (pod : PodInfo) (ts : ℚ) (c : ContainerMetrics)
    (ms : List PrometheusMetric) (ws : List Warning)
    (h : processContainer pod ts c = .ok (ms, ws)) :
    ∀ m ∈ ms, m.type = "gauge" ∧ m.timestamp = ts ∧
      m.labels = { pod := pod.metadata.name, container := c.name,
                   «namespace» := pod.metadata.«namespace» } := by
  obtain ⟨um, uc, m1, m2, m3, m4, w1, w2, w3, w4, hum, huc, h1, h2, h3, h4, hms, hws⟩ :=
    processContainer_inv pod ts c ms ws h
  subst hms
  intro m hm
  simp only [List.append_assoc, List.mem_append, List.mem_cons,
    List.not_mem_nil, or_false] at hm
  rcases hm with (rfl | rfl) | hm | hm | hm | hm
  · exact ⟨rfl, rfl, rfl⟩
  · exact ⟨rfl, rfl, rfl⟩
  · obtain ⟨-, h2', h3', h4'⟩ := rateMetric_fields _ _ _ _ _ _ _ _ _ _ h1 m hm
    exact ⟨h2', h3', h4'⟩
  · obtain ⟨-, h2', h3', h4'⟩ := rateMetric_fields _ _ _ _ _ _ _ _ _ _ h2 m hm
    exact ⟨h2', h3', h4'⟩
  · obtain ⟨-, h2', h3', h4'⟩ := rateMetric_fields _ _ _ _ _ _ _ _ _ _ h3 m hm
    exact ⟨h2', h3', h4'⟩
  · obtain ⟨-, h2', h3', h4'⟩ := rateMetric_fields _ _ _ _ _ _ _ _ _ _ h4 m hm
    exact ⟨h2', h3', h4'⟩

/-- When no spec container matches, the container still processes (no error)
and yields exactly the two unconditional records and no warning. -/
theorem processContainer_no_spec (pod : PodInfo) (ts : ℚ) (c : ContainerMetrics)
    (um uc : ℚ) (hum : parseMemory c.usage.memory = .ok um)
    (huc : parseCpu c.usage.cpu = .ok uc)
    (hns : specContainerOf pod c.name = none) :
    processContainer pod ts c =
      .ok ([{ name := "osmetrics_pod_memory_usage_bytes",
              labels := { pod := pod.metadata.name, container := c.name,
                          «namespace» := pod.metadata.«namespace» },
              type := "gauge", help := "Pod Memory Usage",
              value := um, timestamp := ts },
            { name := "osmetrics_pod_cpu_usage_millicores",
              labels := { pod := pod.metadata.name, container := c.name,
                          «namespace» := pod.metadata.«namespace» },
              type := "gauge", help := "Pod CPU Usage Rate",
              value := uc, timestamp := ts }], []) := by
  rw [specContainerOf] at hns
  unfold processContainer
  rw [hum, huc]
  simp only [Bind.bind, Except.bind, hns]
  rfl

/-- The memory-limit rate block inside a successfully processed container:
the rate record is in the output with value `usage / limit`, and the warning
is recorded iff the rate exceeds 1. -/
theorem processContainer_limit_rate (pod : PodInfo) (ts : ℚ) (c : ContainerMetrics)
    (ms : List PrometheusMetric) (ws : List Warning) (raw : String) (um spec : ℚ)
    (h : processContainer pod ts c = .ok (ms, ws))
    (hum : parseMemory c.usage.memory = .ok um)
    (hd : declaredQuantity ContainerResources.limits ResourceQuantities.memory
            (specContainerOf pod c.name) = some raw)
    (hp : parseMemory raw = .ok spec) :
    ({ name := "osmetrics_pod_memory_usage_limits_rate",
       labels := { pod := pod.metadata.name, container := c.name,
                   «namespace» := pod.metadata.«namespace» },
       type := "gauge", help := "Pod Memory Usage",
       value := um / spec, timestamp := ts } : PrometheusMetric) ∈ ms ∧
    (({ metric := "osmetrics_pod_memory_usage_limits_rate",
        pod := pod.metadata.name, container := c.name, specRaw := raw,
        specParsed := spec, usage := um, rate := um / spec } : Warning) ∈ ws ↔
      um / spec > 1) := by
  obtain ⟨um', uc, m1, m2, m3, m4, w1, w2, w3, w4, hum', huc, h1, h2, h3, h4, hms, hws⟩ :=
    processContainer_inv pod ts c ms ws h
  rw [hum] at hum'
  injection hum' with hum''
  subst hum''
  rw [hd, rateMetric_some _ _ _ _ _ _ _ _ _ hp] at h1
  simp only [Except.ok.injEq, Prod.mk.injEq] at h1
  obtain ⟨hm1, hw1⟩ := h1
  subst hms hws
  rw [← hm1, ← hw1]
  constructor
  · simp
  · constructor
    · intro hw
      rcases List.mem_append.mp hw with hw' | hw4
      rcases List.mem_append.mp hw' with hw'' | hw3
      rcases List.mem_append.mp hw'' with hw1' | hw2
      · by_cases hr : um / spec > 1
        · exact hr
        · rw [if_neg hr] at hw1'
          cases hw1'
      · have := rateMetric_warn_metric _ _ _ _ _ _ _ _ _ _ h2 _ hw2
        simp at this
      · have := rateMetric_warn_metric _ _ _ _ _ _ _ _ _ _ h3 _ hw3
        simp at this
      · have := rateMetric_warn_metric _ _ _ _ _ _ _ _ _ _ h4 _ hw4
        simp at this
    · intro hrate
      refine List.mem_append.mpr (.inl (List.mem_append.mpr (.inl (List.mem_append.mpr (.inl ?_)))))
      rw [if_pos hrate]
      exact List.mem_singleton.mpr rfl

/-- Every record the container loop yields comes from one of the reported
containers, as a gauge with the pod's labels and the shared timestamp. -/
theorem processContainers_fields (pod : PodInfo) (ts : ℚ) (cs : List ContainerMetrics)
    (ms : List PrometheusMetric) (ws : List Warning)
    (h : processContainers pod ts cs = .ok (ms, ws)) :
    ∀ m ∈ ms, ∃ c ∈ cs, m.type = "gauge" ∧ m.timestamp = ts ∧
      m.labels = { pod := pod.metadata.name, container := c.name,
                   «namespace» := pod.metadata.«namespace» } := by
  induction cs generalizing ms ws with
  | nil =>
    simp only [processContainers, Except.ok.injEq, Prod.mk.injEq] at h
    obtain ⟨hms, -⟩ := h
    subst hms
    intro m hm
    cases hm
  | cons c rest ih =>
    unfold processContainers at h
    cases hc : processContainer pod ts c with
    | error e => rw [hc] at h; simp [Bind.bind, Except.bind] at h
    | ok r =>
      obtain ⟨cms, cws⟩ := r
      rw [hc] at h
      simp only [Bind.bind, Except.bind] at h
      cases hrest : processContainers pod ts rest with
      | error e => rw [hrest] at h; simp at h
      | ok r2 =>
        obtain ⟨ms2, ws2⟩ := r2
        rw [hrest] at h
        simp only [Except.ok.injEq, Prod.mk.injEq] at h
        obtain ⟨hms, hws⟩ := h
        subst hms
        intro m hm
        rcases List.mem_append.mp hm with hm' | hm'
        · obtain ⟨ht, hts, hl⟩ := processContainer_fields pod ts c cms cws hc m hm'
          exact ⟨c, List.mem_cons_self c rest, ht, hts, hl⟩
        · obtain ⟨c', hc', rest'⟩ := ih ms2 ws2 hrest m hm'
          exact ⟨c', List.mem_cons_of_mem c hc', rest'⟩

/-- Inversion of the full fetch: a success passes the status check, passes
the body shape checks, decodes the typed view and processes it. -/
theorem fetchPod_inv (getTime : String → ℚ) (pod : PodInfo) (resp : ApiResponse)
    (ms : List PrometheusMetric) (ws : List Warning)
    (h : fetchPodMemoryAndCpuUsage getTime pod resp = .ok (ms, ws)) :
    checkStatus resp.status resp.url = .ok () ∧ checkBody resp.body = .ok () ∧
    ∃ b, decodePodMetrics resp.body = some b ∧
      processBody getTime pod b = .ok (ms, ws) := by
  unfold fetchPodMemoryAndCpuUsage at h
  cases hs : checkStatus resp.status resp.url with
  | error e => rw [hs] at h; simp [Bind.bind, Except.bind] at h
  | ok u =>
    cases u
    rw [hs] at h
    simp only [Bind.bind, Except.bind] at h
    cases hb : checkBody resp.body with
    | error e => rw [hb] at h; simp at h
    | ok u' =>
      cases u'
      rw [hb] at h
      cases hd : decodePodMetrics resp.body with
      | none => rw [hd] at h; simp at h
      | some b =>
        rw [hd] at h
        exact ⟨rfl, rfl, b, rfl, h⟩

/-- Every record a pod's successful fetch yields: gauge, pod labels, and the
timestamp decoded once from the body. -/
theorem fetchPod_fields (getTime : String → ℚ) (pod : PodInfo) (resp : ApiResponse)
    (ms : List PrometheusMetric) (ws : List Warning)
    (h : fetchPodMemoryAndCpuUsage getTime pod resp = .ok (ms, ws)) :
    ∃ b, decodePodMetrics resp.body = some b ∧
      ∀ m ∈ ms, ∃ c ∈ b.containers, m.type = "gauge" ∧
        m.timestamp = dateToTimeStamp getTime b.timestamp ∧
        m.labels = { pod := pod.metadata.name, container := c.name,
                     «namespace» := pod.metadata.«namespace» } := by
  obtain ⟨-, -, b, hd, hp⟩ := fetchPod_inv getTime pod resp ms ws h
  exact ⟨b, hd, processContainers_fields pod _ b.containers ms ws hp⟩

/-- If any pod of the processed list fails its fetch, the whole run fails. -/
theorem collectPods_error_of_mem (getTime : String → ℚ) (fetch : PodInfo → ApiResponse)
    (l : List PodInfo) (p : PodInfo) (e : CollectError)
    (hp : p ∈ l) (hf : fetchPodMemoryAndCpuUsage getTime p (fetch p) = .error e) :
    ∃ e', collectPods getTime fetch l = .error e' := by
  induction l with
  | nil => cases hp
  | cons q rest ih =>
    cases hq : fetchPodMemoryAndCpuUsage getTime q (fetch q) with
    | error e' =>
      refine ⟨e', ?_⟩
      unfold collectPods
      rw [hq]
      rfl
    | ok r =>
      obtain ⟨qms, qws⟩ := r
      rcases List.mem_cons.mp hp with rfl | hp'
      · rw [hf] at hq; cases hq
      · obtain ⟨e', he'⟩ := ih hp'
        refine ⟨e', ?_⟩
        unfold collectPods
        rw [hq]
        simp only [Bind.bind, Except.bind, he']

/-- The run only looks at the responses of the pods it processes. -/
theorem collectPods_congr (getTime : String → ℚ) (f₁ f₂ : PodInfo → ApiResponse)
    (l : List PodInfo) (hagree : ∀ p ∈ l, f₁ p = f₂ p) :
    collectPods getTime f₁ l = collectPods getTime f₂ l := by
  induction l with
  | nil => rfl
  | cons q rest ih =>
    unfold collectPods
    rw [hagree q (List.mem_cons_self q rest),
      ih (fun p hp => hagree p (List.mem_cons_of_mem q hp))]

/-- Every record the run yields traces back to a processed pod. -/
theorem collectPods_fields (getTime : String → ℚ) (fetch : PodInfo → ApiResponse)
    (l : List PodInfo) (ms : List PrometheusMetric) (ws : List Warning)
    (h : collectPods getTime fetch l = .ok (ms, ws)) :
    ∀ m ∈ ms, ∃ p ∈ l, m.labels.pod = p.metadata.name ∧
      m.labels.«namespace» = p.metadata.«namespace» := by
  induction l generalizing ms ws with
  | nil =>
    simp only [collectPods, Except.ok.injEq, Prod.mk.injEq] at h
    obtain ⟨hms, -⟩ := h
    subst hms
    intro m hm
    cases hm
  | cons q rest ih =>
    unfold collectPods at h
    cases hq : fetchPodMemoryAndCpuUsage getTime q (fetch q) with
    | error e => rw [hq] at h; simp [Bind.bind, Except.bind] at h
    | ok r =>
      obtain ⟨qms, qws⟩ := r
      rw [hq] at h
      simp only [Bind.bind, Except.bind] at h
      cases hrest : collectPods getTime fetch rest with
      | error e => rw [hrest] at h; simp at h
      | ok r2 =>
        obtain ⟨ms2, ws2⟩ := r2
        rw [hrest] at h
        simp only [Except.ok.injEq, Prod.mk.injEq] at h
        obtain ⟨hms, -⟩ := h
        subst hms
        intro m hm
        rcases List.mem_append.mp hm with hm' | hm'
        · obtain ⟨b, -, hfields⟩ := fetchPod_fields getTime q (fetch q) qms qws hq
          obtain ⟨c, -, -, -, hl⟩ := hfields m hm'
          exact ⟨q, List.mem_cons_self q rest, by rw [hl], by rw [hl]⟩
        · obtain ⟨p, hp', hrest'⟩ := ih ms2 ws2 hrest m hm'
          exact ⟨p, List.mem_cons_of_mem q hp', hrest'⟩

/-- The suffix table of the quantity parsers, for an arbitrary numeric
prefix `s`: each unit scales the parsed number by its multiplier, and a
trailing `m` leaves millicores unscaled. -/
theorem parse_suffix_table (s : String) (n : ℚ) (h : parseNumber s = some n) :
    parseMemory (s ++ "Ki") = .ok (n * (2 ^ 10 : ℚ)) ∧
    parseMemory (s ++ "Mi") = .ok (n * (2 ^ 20 : ℚ)) ∧
    parseMemory (s ++ "Gi") = .ok (n * (2 ^ 30 : ℚ)) ∧
    parseMemory (s ++ "Ti") = .ok (n * (2 ^ 40 : ℚ)) ∧
    parseMemory (s ++ "Pi") = .ok (n * (2 ^ 50 : ℚ)) ∧
    parseMemory (s ++ "Ei") = .ok (n * (2 ^ 60 : ℚ)) ∧
    parseMemory (s ++ "k") = .ok (n * (10 ^ 3 : ℚ)) ∧
    parseMemory (s ++ "M") = .ok (n * (10 ^ 6 : ℚ)) ∧
    parseMemory (s ++ "G") = .ok (n * (10 ^ 9 : ℚ)) ∧
    parseMemory (s ++ "T") = .ok (n * (10 ^ 12 : ℚ)) ∧
    parseMemory (s ++ "P") = .ok (n * (10 ^ 15 : ℚ)) ∧
    parseMemory (s ++ "E") = .ok (n * (10 ^ 18 : ℚ)) ∧
    parseCpu (s ++ "m") = .ok n := by
  have hn : parseNumber ⟨s.data⟩ = some n := h
  refine ⟨?_, ?_, ?_, ?_, ?_, ?_, ?_, ?_, ?_, ?_, ?_, ?_, ?_⟩
  · have hd : (s ++ "Ki").data.reverse = 'i' :: 'K' :: s.data.reverse := by
      simp [String.data_append]
    unfold parseMemory
    rw [hd]
    show scaled (s ++ "Ki") (s.data.reverse).reverse (2 ^ 10 : ℚ) = .ok (n * (2 ^ 10 : ℚ))
    rw [List.reverse_reverse, scaled, hn]
  · have hd : (s ++ "Mi").data.reverse = 'i' :: 'M' :: s.data.reverse := by
      simp [String.data_append]
    unfold parseMemory
    rw [hd]
    show scaled (s ++ "Mi") (s.data.reverse).reverse (2 ^ 20 : ℚ) = .ok (n * (2 ^ 20 : ℚ))
    rw [List.reverse_reverse, scaled, hn]
  · have hd : (s ++ "Gi").data.reverse = 'i' :: 'G' :: s.data.reverse := by
      simp [String.data_append]
    unfold parseMemory
    rw [hd]
    show scaled (s ++ "Gi") (s.data.reverse).reverse (2 ^ 30 : ℚ) = .ok (n * (2 ^ 30 : ℚ))
    rw [List.reverse_reverse, scaled, hn]
  · have hd : (s ++ "Ti").data.reverse = 'i' :: 'T' :: s.data.reverse := by
      simp [String.data_append]
    unfold parseMemory
    rw [hd]
    show scaled (s ++ "Ti") (s.data.reverse).reverse (2 ^ 40 : ℚ) = .ok (n * (2 ^ 40 : ℚ))
    rw [List.reverse_reverse, scaled, hn]
  · have hd : (s ++ "Pi").data.reverse = 'i' :: 'P' :: s.data.reverse := by
      simp [String.data_append]
    unfold parseMemory
    rw [hd]
    show scaled (s ++ "Pi") (s.data.reverse).reverse (2 ^ 50 : ℚ) = .ok (n * (2 ^ 50 : ℚ))
    rw [List.reverse_reverse, scaled, hn]
  · have hd : (s ++ "Ei").data.reverse = 'i' :: 'E' :: s.data.reverse := by
      simp [String.data_append]
    unfold parseMemory
    rw [hd]
    show scaled (s ++ "Ei") (s.data.reverse).reverse (2 ^ 60 : ℚ) = .ok (n * (2 ^ 60 : ℚ))
    rw [List.reverse_reverse, scaled, hn]
  · have hd : (s ++ "k").data.reverse = 'k' :: s.data.reverse := by
      simp [String.data_append]
    unfold parseMemory
    rw [hd]
    show scaled (s ++ "k") (s.data.reverse).reverse (10 ^ 3 : ℚ) = .ok (n * (10 ^ 3 : ℚ))
    rw [List.reverse_reverse, scaled, hn]
  · have hd : (s ++ "M").data.reverse = 'M' :: s.data.reverse := by
      simp [String.data_append]
    unfold parseMemory
    rw [hd]
    show scaled (s ++ "M") (s.data.reverse).reverse (10 ^ 6 : ℚ) = .ok (n * (10 ^ 6 : ℚ))
    rw [List.reverse_reverse, scaled, hn]
  · have hd : (s ++ "G").data.reverse = 'G' :: s.data.reverse := by
      simp [String.data_append]
    unfold parseMemory
    rw [hd]
    show scaled (s ++ "G") (s.data.reverse).reverse (10 ^ 9 : ℚ) = .ok (n * (10 ^ 9 : ℚ))
    rw [List.reverse_reverse, scaled, hn]
  · have hd : (s ++ "T").data.reverse = 'T' :: s.data.reverse := by
      simp [String.data_append]
    unfold parseMemory
    rw [hd]
    show scaled (s ++ "T") (s.data.reverse).reverse (10 ^ 12 : ℚ) = .ok (n * (10 ^ 12 : ℚ))
    rw [List.reverse_reverse, scaled, hn]
  · have hd : (s ++ "P").data.reverse = 'P' :: s.data.reverse := by
      simp [String.data_append]
    unfold parseMemory
    rw [hd]
    show scaled (s ++ "P") (s.data.reverse).reverse (10 ^ 15 : ℚ) = .ok (n * (10 ^ 15 : ℚ))
    rw [List.reverse_reverse, scaled, hn]
  · have hd : (s ++ "E").data.reverse = 'E' :: s.data.reverse := by
      simp [String.data_append]
    unfold parseMemory
    rw [hd]
    show scaled (s ++ "E") (s.data.reverse).reverse (10 ^ 18 : ℚ) = .ok (n * (10 ^ 18 : ℚ))
    rw [List.reverse_reverse, scaled, hn]
  · have hd : (s ++ "m").data.reverse = 'm' :: s.data.reverse := by
      simp [String.data_append]
    unfold parseCpu
    rw [hd]
    show scaled (s ++ "m") (s.data.reverse).reverse 1 = .ok n
    rw [List.reverse_reverse, scaled, hn]
    simp

/-! ## The claims -/

/-- C1: Fail-fast collection — if any single pod of the filtered set fails
its usage fetch, the whole `collectMetrics` run returns an error (no partial
metric set), no matter which pod failed or how many others succeeded; and the
pool scheduler never dispatches a pending pod once a failure has been
observed (`dispatch` requires `failed = false`), while in-flight fetches may
still settle. -/
theorem collect_fail_fast (getTime : String → ℚ) (fetch : PodInfo → ApiResponse)
    (podsPerNamespace : List (List PodInfo)) (p : PodInfo) (e : CollectError)
    (hp : p ∈ allPodsOf podsPerNamespace)
    (hf : fetchPodMemoryAndCpuUsage getTime p (fetch p) = .error e) :
    (∃ e', collectMetrics getTime fetch podsPerNamespace = .error e') ∧
    (∀ (c : Nat) (ok : PodInfo → Bool) (s s' : PoolState),
      s.failed = true → PoolStep c ok s s' → s'.pending = s.pending) := by
  constructor
  · exact collectPods_error_of_mem getTime fetch _ p e (List.mem_reverse.mpr hp) hf
  · intro c ok s s' hfail hstep
    cases hstep with
    | dispatch q rest s h1 h2 h3 => rw [h1] at hfail; cases hfail
    | settleOk q l₁ l₂ s h1 h2 => rfl
    | settleFail q l₁ l₂ s h1 h2 => rfl

/-- Witness for C1 at a concrete run: one running pod whose fetch returns
HTTP 500 makes the whole collection fail. -/
theorem collect_fail_fast_witness :
    (∃ e', collectMetrics sampleGetTime failingFetch [[samplePod]] = .error e') ∧
    (∀ (c : Nat) (ok : PodInfo → Bool) (s s' : PoolState),
      s.failed = true → PoolStep c ok s s' → s'.pending = s.pending) :=
  collect_fail_fast sampleGetTime failingFetch [[samplePod]] samplePod
    (.upstreamError 500 "https://os/api") (by decide) (by with_unfolding_all rfl)

/-- C9: every record of one pod's successful usage fetch carries the same
timestamp — the decoded body's ISO-8601 timestamp converted once to epoch
seconds, i.e. its epoch milliseconds divided by 1000 — the `gauge` type, and
exactly the pod/container/namespace label set. -/
theorem record_fields_uniform (getTime : String → ℚ) (pod : PodInfo)
    (resp : ApiResponse) (ms : List PrometheusMetric) (ws : List Warning)
    (h : fetchPodMemoryAndCpuUsage getTime pod resp = .ok (ms, ws)) :
    ∃ b, decodePodMetrics resp.body = some b ∧
      ∀ m ∈ ms, m.timestamp = getTime b.timestamp / 1000 ∧ m.type = "gauge" ∧
        ∃ c ∈ b.containers,
          m.labels = { pod := pod.metadata.name, container := c.name,
                       «namespace» := pod.metadata.«namespace» } := by
  obtain ⟨b, hd, hfields⟩ := fetchPod_fields getTime pod resp ms ws h
  refine ⟨b, hd, fun m hm => ?_⟩
  obtain ⟨c, hc, ht, hts, hl⟩ := hfields m hm
  exact ⟨hts, ht, c, hc, hl⟩

/-- Witness for C9 at a concrete response: a valid `PodMetrics` body with one
container yields records stamped with epoch seconds 1700000000. -/
theorem record_fields_uniform_witness :
    ∃ b, decodePodMetrics (JsonValue.obj
        [("kind", .str "PodMetrics"), ("timestamp", .str "2023-11-14T22:13:20Z"),
         ("containers", .arr [.obj [("name", .str "app"),
            ("usage", .obj [("memory", .str "128Mi"), ("cpu", .str "500m")])]])]) = some b ∧
      ∀ m ∈ [({ name := "osmetrics_pod_memory_usage_bytes",
                labels := { pod := "web", container := "app", «namespace» := "prod" },
                type := "gauge", help := "Pod Memory Usage",
                value := 134217728, timestamp := 1700000000 } : PrometheusMetric),
              { name := "osmetrics_pod_cpu_usage_millicores",
                labels := { pod := "web", container := "app", «namespace» := "prod" },
                type := "gauge", help := "Pod CPU Usage Rate",
                value := 500, timestamp := 1700000000 }],
        m.timestamp = sampleGetTime b.timestamp / 1000 ∧ m.type = "gauge" ∧
        ∃ c ∈ b.containers,
          m.labels = { pod := samplePod.metadata.name, container := c.name,
                       «namespace» := samplePod.metadata.«namespace» } :=
  record_fields_uniform sampleGetTime samplePod
    { status := 200, url := "https://os/api",
      body := JsonValue.obj
        [("kind", .str "PodMetrics"), ("timestamp", .str "2023-11-14T22:13:20Z"),
         ("containers", .arr [.obj [("name", .str "app"),
            ("usage", .obj [("memory", .str "128Mi"), ("cpu", .str "500m")])]])] }
    _ _ (by with_unfolding_all rfl)

/-- C10: the `/metrics` route schema accepts an integer `excitement`
parameter, and the handler never reads it: two queries differing only in
`excitement` produce identical collection calls and results, and are accepted
identically by the schema. -/
theorem excitement_ignored (opts : ServerOptions) (getTime : String → ℚ)
    (fetch : PodInfo → ApiResponse) (listing : String → List PodInfo)
    (q : MetricsQuery) (e₁ e₂ : Option Int) :
    metricsRoute opts getTime fetch listing { q with excitement := e₁ } =
      metricsRoute opts getTime fetch listing { q with excitement := e₂ } ∧
    resolveNamespaces opts.defaultNamespace { q with excitement := e₁ } =
      resolveNamespaces opts.defaultNamespace { q with excitement := e₂ } ∧
    querySchemaAccepts { q with excitement := e₁ } =
      querySchemaAccepts { q with excitement := e₂ } :=
  ⟨rfl, rfl, rfl⟩

/-- C4: pods in a terminal phase (`Failed` or `Succeeded`) never contribute
metrics: the filter removes them before any fetch, every emitted record is
labelled by some non-terminal listed pod, and the collection result is
independent of the responses for terminal pods (so no fetch is dispatched for
them). -/
theorem terminal_pods_excluded (getTime : String → ℚ)
    (fetch f₁ f₂ : PodInfo → ApiResponse)
    (podsPerNamespace : List (List PodInfo)) (p : PodInfo)
    (ms : List PrometheusMetric) (ws : List Warning)
    (hterm : p.status.phase = "Failed" ∨ p.status.phase = "Succeeded")
    (hok : collectMetrics getTime fetch podsPerNamespace = .ok (ms, ws))
    (hagree : ∀ q, nonTerminal q = true → f₁ q = f₂ q) :
    p ∉ allPodsOf podsPerNamespace ∧
    (∀ m ∈ ms, ∃ q ∈ concatPods podsPerNamespace, nonTerminal q = true ∧
      m.labels.pod = q.metadata.name ∧
      m.labels.«namespace» = q.metadata.«namespace») ∧
    collectMetrics getTime f₁ podsPerNamespace =
      collectMetrics getTime f₂ podsPerNamespace := by
  refine ⟨?_, ?_, ?_⟩
  · intro hmem
    have hnt := (List.mem_filter.mp hmem).2
    rcases hterm with hph | hph <;> simp [nonTerminal, hph] at hnt
  · intro m hm
    obtain ⟨q, hq, hl⟩ := collectPods_fields getTime fetch _ ms ws hok m hm
    have hq' := List.mem_reverse.mp hq
    exact ⟨q, (List.mem_filter.mp hq').1, (List.mem_filter.mp hq').2, hl⟩
  · exact collectPods_congr getTime f₁ f₂ _
      (fun q hq => hagree q (List.mem_filter.mp (List.mem_reverse.mp hq)).2)

/-- Witness for C4 at a concrete run: a succeeded pod is filtered out and an
empty deployment collects successfully with no records. -/
theorem terminal_pods_excluded_witness :
    donePod ∉ allPodsOf [[donePod]] ∧
    (∀ m ∈ ([] : List PrometheusMetric), ∃ q ∈ concatPods [[donePod]],
      nonTerminal q = true ∧ m.labels.pod = q.metadata.name ∧
      m.labels.«namespace» = q.metadata.«namespace») ∧
    collectMetrics sampleGetTime failingFetch [[donePod]] =
      collectMetrics sampleGetTime failingFetch [[donePod]] :=
  terminal_pods_excluded sampleGetTime failingFetch failingFetch failingFetch
    [[donePod]] donePod [] [] (.inr rfl) (by with_unfolding_all rfl)
    (fun q _ => rfl)

/-- C5: the fetch fails with an `UpstreamError` naming the offending status
and URL exactly when the status is outside [200,299] or equals 204; any other
status passes the gate and the fetch proceeds to decode the body. -/
theorem upstream_status_gate (getTime : String → ℚ) (pod : PodInfo)
    (resp : ApiResponse) :
    (checkStatus resp.status resp.url =
        .error (.upstreamError resp.status resp.url) ↔
      resp.status < 200 ∨ resp.status > 299 ∨ resp.status = 204) ∧
    (resp.status < 200 ∨ resp.status > 299 ∨ resp.status = 204 →
      fetchPodMemoryAndCpuUsage getTime pod resp =
        .error (.upstreamError resp.status resp.url)) ∧
    (¬(resp.status < 200 ∨ resp.status > 299 ∨ resp.status = 204) →
      checkStatus resp.status resp.url = .ok () ∧
      fetchPodMemoryAndCpuUsage getTime pod resp =
        (do checkBody resp.body
            match decodePodMetrics resp.body with
            | none => .error .typeError
            | some b => processBody getTime pod b)) := by
  refine ⟨⟨?_, ?_⟩, ?_, ?_⟩
  · intro h
    by_contra hc
    rw [checkStatus, if_neg hc] at h
    cases h
  · intro h
    rw [checkStatus, if_pos h]
  · intro h
    unfold fetchPodMemoryAndCpuUsage
    rw [checkStatus, if_pos h]
    rfl
  · intro h
    constructor
    · rw [checkStatus, if_neg h]
    · unfold fetchPodMemoryAndCpuUsage
      rw [checkStatus, if_neg h]
      rfl

/-- Witness for C5: HTTP 500 yields the upstream error naming 500 and the
URL; HTTP 204 does too; HTTP 200 passes the status gate. -/
theorem upstream_status_gate_witness :
    fetchPodMemoryAndCpuUsage sampleGetTime samplePod (failingFetch samplePod) =
      .error (.upstreamError 500 "https://os/api") ∧
    checkStatus 204 "https://os/api" = .error (.upstreamError 204 "https://os/api") ∧
    checkStatus 200 "https://os/api" = .ok () :=
  ⟨(upstream_status_gate sampleGetTime samplePod (failingFetch samplePod)).2.1
      (by with_unfolding_all decide),
   (upstream_status_gate sampleGetTime samplePod
      { status := 204, url := "https://os/api", body := .null }).1.mpr
      (by decide),
   ((upstream_status_gate sampleGetTime samplePod
      { status := 200, url := "https://os/api", body := .null }).2.2
      (by decide)).1⟩

/-- C2: a successfully processed container yields exactly one memory-usage
record and one CPU-usage record; each of the four conditional rate records is
present exactly when the matching declared quantity is present on the spec
container matched by name (no record otherwise); every record bears one of
the six metric names; and a missing spec container is not an error — the
container still processes and yields just the two unconditional records. -/
theorem container_record_multiplicity (pod : PodInfo) (ts : ℚ)
    (c : ContainerMetrics) (ms : List PrometheusMetric) (ws : List Warning)
    (h : processContainer pod ts c = .ok (ms, ws)) :
    ms.countP (fun m => m.name == "osmetrics_pod_memory_usage_bytes") = 1 ∧
    ms.countP (fun m => m.name == "osmetrics_pod_cpu_usage_millicores") = 1 ∧
    ms.countP (fun m => m.name == "osmetrics_pod_memory_usage_limits_rate") =
      (if (declaredQuantity ContainerResources.limits ResourceQuantities.memory
            (specContainerOf pod c.name)).isSome then 1 else 0) ∧
    ms.countP (fun m => m.name == "osmetrics_pod_memory_usage_requests_rate") =
      (if (declaredQuantity ContainerResources.requests ResourceQuantities.memory
            (specContainerOf pod c.name)).isSome then 1 else 0) ∧
    ms.countP (fun m => m.name == "osmetrics_pod_cpu_usage_limits_rate") =
      (if (declaredQuantity ContainerResources.limits ResourceQuantities.cpu
            (specContainerOf pod c.name)).isSome then 1 else 0) ∧
    ms.countP (fun m => m.name == "osmetrics_pod_cpu_usage_requests_rate") =
      (if (declaredQuantity ContainerResources.requests ResourceQuantities.cpu
            (specContainerOf pod c.name)).isSome then 1 else 0) ∧
    (∀ m ∈ ms, m.name ∈ ["osmetrics_pod_memory_usage_bytes",
      "osmetrics_pod_cpu_usage_millicores", "osmetrics_pod_memory_usage_limits_rate",
      "osmetrics_pod_memory_usage_requests_rate", "osmetrics_pod_cpu_usage_limits_rate",
      "osmetrics_pod_cpu_usage_requests_rate"]) ∧
    (∀ (pod' : PodInfo) (ts' : ℚ) (c' : ContainerMetrics) (um uc : ℚ),
      parseMemory c'.usage.memory = .ok um → parseCpu c'.usage.cpu = .ok uc →
      specContainerOf pod' c'.name = none →
      processContainer pod' ts' c' =
        .ok ([{ name := "osmetrics_pod_memory_usage_bytes",
                labels := { pod := pod'.metadata.name, container := c'.name,
                            «namespace» := pod'.metadata.«namespace» },
                type := "gauge", help := "Pod Memory Usage",
                value := um, timestamp := ts' },
              { name := "osmetrics_pod_cpu_usage_millicores",
                labels := { pod := pod'.metadata.name, container := c'.name,
                            «namespace» := pod'.metadata.«namespace» },
                type := "gauge", help := "Pod CPU Usage Rate",
                value := uc, timestamp := ts' }], [])) := by
  refine ⟨?_, ?_, ?_, ?_, ?_, ?_, ?_,
    fun pod' ts' c' um uc hum huc hns =>
      processContainer_no_spec pod' ts' c' um uc hum huc hns⟩
  · rw [processContainer_countP pod ts c ms ws h]
    simp
  · rw [processContainer_countP pod ts c ms ws h]
    simp
  · rw [processContainer_countP pod ts c ms ws h]
    simp
  · rw [processContainer_countP pod ts c ms ws h]
    simp
  · rw [processContainer_countP pod ts c ms ws h]
    simp
  · rw [processContainer_countP pod ts c ms ws h]
    simp
  · obtain ⟨um, uc, m1, m2, m3, m4, w1, w2, w3, w4, hum, huc, h1, h2, h3, h4, hms, hws⟩ :=
      processContainer_inv pod ts c ms ws h
    subst hms
    intro m hm
    simp only [List.append_assoc, List.mem_append, List.mem_cons,
      List.not_mem_nil, or_false] at hm
    rcases hm with (rfl | rfl) | hm | hm | hm | hm
    · simp
    · simp
    · have := (rateMetric_fields _ _ _ _ _ _ _ _ _ _ h1 m hm).1
      simp [this]
    · have := (rateMetric_fields _ _ _ _ _ _ _ _ _ _ h2 m hm).1
      simp [this]
    · have := (rateMetric_fields _ _ _ _ _ _ _ _ _ _ h3 m hm).1
      simp [this]
    · have := (rateMetric_fields _ _ _ _ _ _ _ _ _ _ h4 m hm).1
      simp [this]

/-- Witness for C2: the container with a declared memory limit yields the two
unconditional records plus exactly the memory-limit rate record. -/
theorem container_record_multiplicity_witness :
    sampleHotRecords.countP (fun m => m.name == "osmetrics_pod_memory_usage_bytes") = 1 ∧
    sampleHotRecords.countP (fun m => m.name == "osmetrics_pod_cpu_usage_millicores") = 1 ∧
    sampleHotRecords.countP (fun m => m.name == "osmetrics_pod_memory_usage_limits_rate") =
      (if (declaredQuantity ContainerResources.limits ResourceQuantities.memory
            (specContainerOf samplePodWithLimit sampleHotContainer.name)).isSome then 1 else 0) ∧
    sampleHotRecords.countP (fun m => m.name == "osmetrics_pod_memory_usage_requests_rate") =
      (if (declaredQuantity ContainerResources.requests ResourceQuantities.memory
            (specContainerOf samplePodWithLimit sampleHotContainer.name)).isSome then 1 else 0) ∧
    sampleHotRecords.countP (fun m => m.name == "osmetrics_pod_cpu_usage_limits_rate") =
      (if (declaredQuantity ContainerResources.limits ResourceQuantities.cpu
            (specContainerOf samplePodWithLimit sampleHotContainer.name)).isSome then 1 else 0) ∧
    sampleHotRecords.countP (fun m => m.name == "osmetrics_pod_cpu_usage_requests_rate") =
      (if (declaredQuantity ContainerResources.requests ResourceQuantities.cpu
            (specContainerOf samplePodWithLimit sampleHotContainer.name)).isSome then 1 else 0) ∧
    (∀ m ∈ sampleHotRecords, m.name ∈ ["osmetrics_pod_memory_usage_bytes",
      "osmetrics_pod_cpu_usage_millicores", "osmetrics_pod_memory_usage_limits_rate",
      "osmetrics_pod_memory_usage_requests_rate", "osmetrics_pod_cpu_usage_limits_rate",
      "osmetrics_pod_cpu_usage_requests_rate"]) ∧
    (∀ (pod' : PodInfo) (ts' : ℚ) (c' : ContainerMetrics) (um uc : ℚ),
      parseMemory c'.usage.memory = .ok um → parseCpu c'.usage.cpu = .ok uc →
      specContainerOf pod' c'.name = none →
      processContainer pod' ts' c' =
        .ok ([{ name := "osmetrics_pod_memory_usage_bytes",
                labels := { pod := pod'.metadata.name, container := c'.name,
                            «namespace» := pod'.metadata.«namespace» },
                type := "gauge", help := "Pod Memory Usage",
                value := um, timestamp := ts' },
              { name := "osmetrics_pod_cpu_usage_millicores",
                labels := { pod := pod'.metadata.name, container := c'.name,
                            «namespace» := pod'.metadata.«namespace» },
                type := "gauge", help := "Pod CPU Usage Rate",
                value := uc, timestamp := ts' }], [])) :=
  container_record_multiplicity samplePodWithLimit 0 sampleHotContainer
    sampleHotRecords [sampleHotWarning] (by with_unfolding_all rfl)

/-- C3: for a container with a declared quantity, the rate record's value is
the parsed usage divided by the parsed declared quantity; a rate above 1 adds
a warning through the injected logger but the record is still emitted and no
error is raised (shown for the memory-limit block inside the container
pipeline, and generically for every rate block). -/
theorem rate_record_value_and_warning (pod : PodInfo) (ts : ℚ)
    (c : ContainerMetrics) (ms : List PrometheusMetric) (ws : List Warning)
    (raw : String) (um spec : ℚ)
    (h : processContainer pod ts c = .ok (ms, ws))
    (hum : parseMemory c.usage.memory = .ok um)
    (hd : declaredQuantity ContainerResources.limits ResourceQuantities.memory
            (specContainerOf pod c.name) = some raw)
    (hp : parseMemory raw = .ok spec) :
    (({ name := "osmetrics_pod_memory_usage_limits_rate",
        labels := { pod := pod.metadata.name, container := c.name,
                    «namespace» := pod.metadata.«namespace» },
        type := "gauge", help := "Pod Memory Usage",
        value := um / spec, timestamp := ts } : PrometheusMetric) ∈ ms) ∧
    (({ metric := "osmetrics_pod_memory_usage_limits_rate",
        pod := pod.metadata.name, container := c.name, specRaw := raw,
        specParsed := spec, usage := um, rate := um / spec } : Warning) ∈ ws ↔
      um / spec > 1) ∧
    (∀ (metricName helpText : String) (parser : String → Except CollectError ℚ)
       (usage : ℚ) (pod' : PodInfo) (cn : String) (ts' : ℚ) (raw' : String)
       (spec' : ℚ), parser raw' = .ok spec' →
      rateMetric metricName helpText parser usage pod' cn ts' (some raw') =
        .ok ([{ name := metricName,
                labels := { pod := pod'.metadata.name, container := cn,
                            «namespace» := pod'.metadata.«namespace» },
                type := "gauge", help := helpText, value := usage / spec',
                timestamp := ts' }],
             if usage / spec' > 1 then
               [{ metric := metricName, pod := pod'.metadata.name,
                  container := cn, specRaw := raw', specParsed := spec',
                  usage := usage, rate := usage / spec' }]
             else [])) := by
  obtain ⟨hmem, hiff⟩ :=
    processContainer_limit_rate pod ts c ms ws raw um spec h hum hd hp
  exact ⟨hmem, hiff,
    fun metricName helpText parser usage pod' cn ts' raw' spec' hp' =>
      rateMetric_some metricName helpText parser usage pod' cn ts' raw' spec' hp'⟩

/-- Witness for C3: usage 2^29 against limit 2^28 yields the rate record with
value 2, which is present in the output while the warning fires. -/
theorem rate_record_value_and_warning_witness :
    (({ name := "osmetrics_pod_memory_usage_limits_rate",
        labels := { pod := samplePodWithLimit.metadata.name,
                    container := sampleHotContainer.name,
                    «namespace» := samplePodWithLimit.metadata.«namespace» },
        type := "gauge", help := "Pod Memory Usage",
        value := 536870912 / 268435456, timestamp := 0 } : PrometheusMetric) ∈
      sampleHotRecords) ∧
    (({ metric := "osmetrics_pod_memory_usage_limits_rate",
        pod := samplePodWithLimit.metadata.name,
        container := sampleHotContainer.name, specRaw := "256Mi",
        specParsed := 268435456, usage := 536870912,
        rate := 536870912 / 268435456 } : Warning) ∈ [sampleHotWarning] ↔
      (536870912 : ℚ) / 268435456 > 1) ∧
    (∀ (metricName helpText : String) (parser : String → Except CollectError ℚ)
       (usage : ℚ) (pod' : PodInfo) (cn : String) (ts' : ℚ) (raw' : String)
       (spec' : ℚ), parser raw' = .ok spec' →
      rateMetric metricName helpText parser usage pod' cn ts' (some raw') =
        .ok ([{ name := metricName,
                labels := { pod := pod'.metadata.name, container := cn,
                            «namespace» := pod'.metadata.«namespace» },
                type := "gauge", help := helpText, value := usage / spec',
                timestamp := ts' }],
             if usage / spec' > 1 then
               [{ metric := metricName, pod := pod'.metadata.name,
                  container := cn, specRaw := raw', specParsed := spec',
                  usage := usage, rate := usage / spec' }]
             else [])) :=
  rate_record_value_and_warning samplePodWithLimit 0 sampleHotContainer
    sampleHotRecords [sampleHotWarning] "256Mi" 536870912 268435456
    (by with_unfolding_all rfl) (by with_unfolding_all rfl)
    (by with_unfolding_all rfl) (by with_unfolding_all rfl)

/-- C6: the body shape gate — a non-object body (JS `typeof` other than
`"object"`), an array, or `null` is an `UpstreamShapeError`; a `kind` other
than `"PodMetrics"` is an `UpstreamShapeError` naming the actual kind; and
only bodies passing all four checks reach metric processing. -/
theorem body_shape_gate (body : JsonValue) :
    (jsTypeof body ≠ "object" →
      checkBody body = .error (.upstreamShapeError
        ("Expected OS API to return an object but got " ++ jsTypeof body))) ∧
    (body.isArrB = true →
      checkBody body = .error (.upstreamShapeError
        "Expected OS API to return an object but got an array")) ∧
    (body.isNullB = true →
      checkBody body = .error (.upstreamShapeError
        "Expected OS API to return an object but got null")) ∧
    (jsTypeof body = "object" → body.isArrB = false → body.isNullB = false →
      kindIsPodMetrics body = false →
      checkBody body = .error (.upstreamShapeError
        ("Expected OS API to return a PodMetrics but got " ++
          displayKind (bodyKind body)))) ∧
    (checkBody body = .ok () ↔
      jsTypeof body = "object" ∧ body.isArrB = false ∧ body.isNullB = false ∧
        kindIsPodMetrics body = true) ∧
    (∀ (getTime : String → ℚ) (pod : PodInfo) (resp : ApiResponse)
       (ms : List PrometheusMetric) (ws : List Warning),
      resp.body = body →
      fetchPodMemoryAndCpuUsage getTime pod resp = .ok (ms, ws) →
      checkBody body = .ok ()) := by
  refine ⟨?_, ?_, ?_, ?_, ?_, ?_⟩
  · intro h
    rw [checkBody, if_pos h]
  · intro h
    cases body <;> simp_all [JsonValue.isArrB]
    rw [checkBody]
    simp [jsTypeof, JsonValue.isArrB]
  · intro h
    cases body <;> simp_all [JsonValue.isNullB]
    rw [checkBody]
    simp [jsTypeof, JsonValue.isArrB, JsonValue.isNullB]
  · intro h1 h2 h3 h4
    rw [checkBody, if_neg (by simp [h1]), if_neg (by simp [h2]),
      if_neg (by simp [h3]), if_pos (by simp [h4])]
  · constructor
    · intro h
      rw [checkBody] at h
      by_cases c1 : jsTypeof body ≠ "object"
      · rw [if_pos c1] at h; cases h
      · rw [if_neg c1] at h
        by_cases c2 : body.isArrB
        · rw [if_pos c2] at h; cases h
        · rw [if_neg c2] at h
          by_cases c3 : body.isNullB
          · rw [if_pos c3] at h; cases h
          · rw [if_neg c3] at h
            by_cases c4 : kindIsPodMetrics body
            · exact ⟨not_not.mp c1, Bool.not_eq_true _ ▸ c2,
                Bool.not_eq_true _ ▸ c3, c4⟩
            · rw [if_pos c4] at h; cases h
    · rintro ⟨h1, h2, h3, h4⟩
      rw [checkBody, if_neg (by simp [h1]), if_neg (by simp [h2]),
        if_neg (by simp [h3]), if_neg (by simp [h4])]
  · intro getTime pod resp ms ws hb hok
    have := (fetchPod_inv getTime pod resp ms ws hok).2.1
    rw [hb] at this
    exact this

/-- Witness for C6: a wrong-kind object fails naming the kind, an array and
`null` fail as shape errors, and a proper `PodMetrics` object passes. -/
theorem body_shape_gate_witness :
    checkBody (.obj [("kind", .str "Status")]) =
      .error (.upstreamShapeError
        "Expected OS API to return a PodMetrics but got Status") ∧
    checkBody (.arr []) =
      .error (.upstreamShapeError
        "Expected OS API to return an object but got an array") ∧
    checkBody .null =
      .error (.upstreamShapeError
        "Expected OS API to return an object but got null") ∧
    checkBody (.str "nope") =
      .error (.upstreamShapeError
        "Expected OS API to return an object but got string") ∧
    checkBody (.obj [("kind", .str "PodMetrics")]) = .ok () :=
  ⟨(body_shape_gate (.obj [("kind", .str "Status")])).2.2.2.1 rfl rfl rfl
      (by decide),
   (body_shape_gate (.arr [])).2.1 rfl,
   (body_shape_gate .null).2.2.1 rfl,
   (body_shape_gate (.str "nope")).1 (by decide),
   (body_shape_gate (.obj [("kind", .str "PodMetrics")])).2.2.2.2.1.mpr
      ⟨rfl, rfl, rfl, by decide⟩⟩

/-- C7: along any pool run for one collection cycle, the number of usage
fetches in flight never exceeds the concurrency bound; the server default for
that bound is 10 when the option is omitted; and whenever a fetch completes
with pods still pending, no failure observed and capacity free, the next
pending pod can be dispatched. -/
theorem pool_concurrency_bound (c : Nat) (ok : PodInfo → Bool)
    (podsPerNamespace : List (List PodInfo)) (s : PoolState)
    (hreach : PoolReachable c ok (initPoolState podsPerNamespace) s) :
    s.inFlight.length ≤ c ∧
    (∀ dn : List String, ({ defaultNamespace := dn } : ServerOptions).concurrency = 10) ∧
    (∀ (t : PoolState) (p : PodInfo) (rest : List PodInfo),
      t.failed = false → t.pending = p :: rest → t.inFlight.length < c →
      ∃ t', PoolStep c ok t t' ∧ t'.inFlight.length = t.inFlight.length + 1) := by
  refine ⟨?_, fun dn => rfl, ?_⟩
  · induction hreach with
    | refl => simp [initPoolState]
    | tail hsteps hstep ih =>
      cases hstep with
      | dispatch p rest s0 hfail hpend hlt =>
        simpa using hlt
      | settleOk p l₁ l₂ s0 hin hokp =>
        have hlen := ih
        rw [hin] at hlen
        simp only [List.length_append, List.length_cons] at hlen ⊢
        omega
      | settleFail p l₁ l₂ s0 hin hokp =>
        have hlen := ih
        rw [hin] at hlen
        simp only [List.length_append, List.length_cons] at hlen ⊢
        omega
  · intro t p rest h1 h2 h3
    exact ⟨_, .dispatch p rest t h1 h2 h3, by simp⟩

/-- Witness for C7: the initial pool state of a one-pod cycle respects the
bound 3, and the default server concurrency is 10. -/
theorem pool_concurrency_bound_witness :
    (initPoolState [[samplePod]]).inFlight.length ≤ 3 ∧
    (∀ dn : List String, ({ defaultNamespace := dn } : ServerOptions).concurrency = 10) ∧
    (∀ (t : PoolState) (p : PodInfo) (rest : List PodInfo),
      t.failed = false → t.pending = p :: rest → t.inFlight.length < 3 →
      ∃ t', PoolStep 3 (fun _ => true) t t' ∧
        t'.inFlight.length = t.inFlight.length + 1) :=
  pool_concurrency_bound 3 (fun _ => true) [[samplePod]]
    (initPoolState [[samplePod]]) Relation.ReflTransGen.refl

/-- C8: the quantity parsers are total and satisfy the reference conversion
tables — binary suffixes Ki…Ei scale by 2^10…2^60, decimal suffixes k…E by
10^3…10^18, no suffix is raw bytes, a trailing `m` is millicores and its
absence whole cores times 1000 — and malformed input is a `ParseError`, not a
zero default. -/
theorem quantity_parser_tables :
    parseMemory "128Mi" = .ok (128 * 2 ^ 20) ∧
    parseMemory "1Gi" = .ok (2 ^ 30) ∧
    parseMemory "500" = .ok 500 ∧
    parseMemory "bogus" = .error (.parseError "bogus") ∧
    parseCpu "500m" = .ok 500 ∧
    parseCpu "2" = .ok 2000 ∧
    parseCpu "0.5" = .ok 500 ∧
    parseCpu "abc" = .error (.parseError "abc") ∧
    parseMemory "1Ki" = .ok (2 ^ 10) ∧
    parseMemory "1Mi" = .ok (2 ^ 20) ∧
    parseMemory "1Ti" = .ok (2 ^ 40) ∧
    parseMemory "1Pi" = .ok (2 ^ 50) ∧
    parseMemory "1Ei" = .ok (2 ^ 60) ∧
    parseMemory "1k" = .ok (10 ^ 3) ∧
    parseMemory "1M" = .ok (10 ^ 6) ∧
    parseMemory "1G" = .ok (10 ^ 9) ∧
    parseMemory "1T" = .ok (10 ^ 12) ∧
    parseMemory "1P" = .ok (10 ^ 15) ∧
    parseMemory "1E" = .ok (10 ^ 18) ∧
    (∀ (s : String) (n : ℚ), parseNumber s = some n →
      parseMemory (s ++ "Ki") = .ok (n * (2 ^ 10 : ℚ)) ∧
      parseMemory (s ++ "Mi") = .ok (n * (2 ^ 20 : ℚ)) ∧
      parseMemory (s ++ "Gi") = .ok (n * (2 ^ 30 : ℚ)) ∧
      parseMemory (s ++ "Ti") = .ok (n * (2 ^ 40 : ℚ)) ∧
      parseMemory (s ++ "Pi") = .ok (n * (2 ^ 50 : ℚ)) ∧
      parseMemory (s ++ "Ei") = .ok (n * (2 ^ 60 : ℚ)) ∧
      parseMemory (s ++ "k") = .ok (n * (10 ^ 3 : ℚ)) ∧
      parseMemory (s ++ "M") = .ok (n * (10 ^ 6 : ℚ)) ∧
      parseMemory (s ++ "G") = .ok (n * (10 ^ 9 : ℚ)) ∧
      parseMemory (s ++ "T") = .ok (n * (10 ^ 12 : ℚ)) ∧
      parseMemory (s ++ "P") = .ok (n * (10 ^ 15 : ℚ)) ∧
      parseMemory (s ++ "E") = .ok (n * (10 ^ 18 : ℚ)) ∧
      parseCpu (s ++ "m") = .ok n) := by
  refine ⟨?_, ?_, ?_, ?_, ?_, ?_, ?_, ?_, ?_, ?_, ?_, ?_, ?_, ?_, ?_, ?_, ?_,
    ?_, ?_, fun s n h => parse_suffix_table s n h⟩ <;> with_unfolding_all rfl

/-- Witness for C8: the general suffix law applied to concrete prefixes. -/
theorem quantity_parser_tables_witness :
    parseMemory ("128" ++ "Mi") = .ok (128 * (2 ^ 20 : ℚ)) ∧
    parseCpu ("500" ++ "m") = .ok 500 := by
  obtain ⟨-, -, -, -, -, -, -, -, -, -, -, -, -, -, -, -, -, -, -, hgen⟩ :=
    quantity_parser_tables
  exact ⟨(hgen "128" 128 (by with_unfolding_all rfl)).2.1,
         (hgen "500" 500 (by with_unfolding_all rfl)).2.2.2.2.2.2.2.2.2.2.2.2⟩
